import Mathlib

/-!
Verification of the AI_GENOME literature-assistant program (src/main.py).

The program has three pure-logic components that we embed shallowly:

* `lit_search` — builds the Semantic Scholar request parameters (query, year
  range) and turns the HTTP outcome into a paper list, catching request
  errors;
* `build_context_from_papers` — takes the first `k` paper records and renders
  a numbered source list and a numbered abstract block;
* `init_vertex` / `ask_gemini_about_papers` — env-gated model call returning
  the model text, a placeholder, or an absent answer on failure.

Python strings are modelled as Lean `String` (a list of characters, matching
Python's code-point indexing for `len` and slicing).  Python `None`-able
values are `Option`.  The external world (HTTP, Vertex AI) is passed in as
explicit `Except`-valued outcomes; user-visible `st.error` messages and
outbound network calls are returned as explicit traces.
-/

namespace AIGenome

/-- Python truthiness of a string: non-empty. -/
def pyTruthy (s : String) : Bool := s ≠ ""

/-- Characters `str.strip()` removes (ASCII whitespace; the program's data is
ASCII so the extra Unicode space classes Python also strips never occur). -/
def pySpace (c : Char) : Bool :=
  c = ' ' || c = '\t' || c = '\n' || c = '\r' || c = '\x0b' || c = '\x0c'

/-- Python `s.strip()`: drop leading and trailing whitespace. -/
def pyStrip (s : String) : String :=
  ⟨((s.data.dropWhile pySpace).reverse.dropWhile pySpace).reverse⟩

/-- Python `s[:m]`: the first `m` characters. -/
def pyTake (s : String) (m : Nat) : String := ⟨s.data.take m⟩

/-- Python `x or d` on an optional string: `d` when `x` is `None` or empty. -/
def pyOr (x : Option String) (d : String) : String :=
  match x with
  | none => d
  | some s => if s = "" then d else s

/-- An entry of a paper's `authors` array: an object that may carry `name`. -/
structure Author where
  name : Option String
deriving Repr, DecidableEq

/-- A paper record as returned by the search API; every field may be absent. -/
structure Paper where
  title : Option String
  year : Option Int
  authors : Option (List Author)
  abstract : Option String
  url : Option String
deriving Repr, DecidableEq

/-- `p.get("title") or "Untitled"`. -/
def titleOf (p : Paper) : String := pyOr p.title "Untitled"

/-- The f-string rendering `{year}` of `p.get("year")`: `str` of the int, or
the literal `None` when the field is absent. -/
def yearStr (p : Paper) : String :=
  match p.year with
  | none => "None"
  | some y => toString y

/-- `p.get("url") or ""`. -/
def urlOf (p : Paper) : String := pyOr p.url ""

/-- `", ".join(a.get("name", "") for a in p.get("authors", []))`. -/
def authorsStr (p : Paper) : String :=
  String.intercalate ", " ((p.authors.getD []).map fun a => a.name.getD "")

/-- `f"[{idx}] {title} ({year}) — {authors} — {url}".strip()`. -/
def sourceLine (idx : Nat) (p : Paper) : String :=
  pyStrip ("[" ++ toString idx ++ "] " ++ titleOf p ++ " (" ++ yearStr p ++
    ") — " ++ authorsStr p ++ " — " ++ urlOf p)

/-- `abstract[:max_abs_chars] + ("..." if len(abstract) > max_abs_chars else "")`. -/
def short_abs (maxAbsChars : Nat) (abstract : String) : String :=
  pyTake abstract maxAbsChars ++ (if maxAbsChars < abstract.length then "..." else "")

/-- The stripped abstract of a record: `(p.get("abstract") or "").strip()`. -/
def strippedAbstract (p : Paper) : String := pyStrip (p.abstract.getD "")

/-- One entry of the abstract block: title plus the truncated abstract, or
the fixed placeholder when no (non-whitespace) abstract exists. -/
def abstractChunk (idx maxAbsChars : Nat) (p : Paper) : String :=
  let abstract := strippedAbstract p
  if abstract ≠ "" then
    "[" ++ toString idx ++ "] Title: " ++ titleOf p ++ "\nAbstract: " ++
      short_abs maxAbsChars abstract
  else
    "[" ++ toString idx ++ "] Title: " ++ titleOf p ++
      "\nAbstract: (no abstract available)"

/-- The `for idx, p in enumerate(selected, 1)` loop: builds the source lines
and abstract chunks in input order, indices starting at `idx`. -/
def buildLoop (maxAbsChars : Nat) : Nat → List Paper → List String × List String
  | _, [] => ([], [])
  | idx, p :: ps =>
    let rest := buildLoop maxAbsChars (idx + 1) ps
    (sourceLine idx p :: rest.1, abstractChunk idx maxAbsChars p :: rest.2)

/-- The two lists the loop accumulates, over `selected = papers[:k]`. -/
def ctxLists (papers : List Paper) (k maxAbsChars : Nat) :
    List String × List String :=
  buildLoop maxAbsChars 1 (papers.take k)

/-- `build_context_from_papers(papers, k, max_abs_chars)`:
`"\n".join(source_lines), "\n\n".join(abstract_chunks)`. -/
def build_context_from_papers (papers : List Paper)
    (k : Nat := 8) (maxAbsChars : Nat := 900) : String × String :=
  let lists := ctxLists papers k maxAbsChars
  (String.intercalate "\n" lists.1, String.intercalate "\n\n" lists.2)

/-! ## Search client (`lit_search`) -/

/-- The `year` range parameter of the search request:
`if start_year and end_year / elif start_year and not end_year / elif
end_year and not start_year`, else absent. -/
def lit_search_yearParam (start_year end_year : String) : Option String :=
  if pyTruthy start_year && pyTruthy end_year then
    some (start_year ++ "-" ++ end_year)
  else if pyTruthy start_year && !pyTruthy end_year then
    some (start_year ++ "-")
  else if pyTruthy end_year && !pyTruthy start_year then
    some ("-" ++ end_year)
  else
    none

/-- The query parameters `lit_search` sends to `/paper/search`. -/
structure SearchParams where
  query : String
  fields : String
  limit : Nat
  sort : String
  year : Option String
deriving Repr, DecidableEq

/-- The `params` dict built by `lit_search` (`(topic or "").strip()` equals
`pyStrip topic`, since stripping the empty string is the empty string). -/
def lit_search_params (topic start_year end_year : String) (limit : Nat) :
    SearchParams :=
  { query := pyStrip topic
    fields := "title,abstract,year,authors,url"
    limit := limit
    sort := "year"
    year := lit_search_yearParam start_year end_year }

/-- The JSON body of a search response; `dataField` is the `data` key:
absent (`none`), present but `null` (`some none`), or an array. -/
structure SearchBody where
  dataField : Option (Option (List Paper))
deriving Repr, DecidableEq

/-- An HTTP response: status code and body (`none` models empty `r.content`). -/
structure HttpResponse where
  status : Nat
  body : Option SearchBody
deriving Repr, DecidableEq

/-- `requests.Response.raise_for_status()`: raises for 4xx/5xx statuses. -/
def raise_for_status (r : HttpResponse) : Except String HttpResponse :=
  if 400 ≤ r.status then Except.error ("HTTP " ++ toString r.status)
  else Except.ok r

/-- `data.get("data", []) or []` applied to `r.json() if r.content else {}`. -/
def extractPapers (body : Option SearchBody) : List Paper :=
  match body with
  | none => []
  | some b =>
    match b.dataField with
    | none => []
    | some none => []
    | some (some papers) => papers

/-- `lit_search`, with the outcome of `requests.get` supplied explicitly
(`Except.error` models a raised `requests.RequestException`, timeouts
included).  Returns the `st.error` messages surfaced and the `papers` list
of the returned dict. -/
def lit_search (topic start_year end_year : String) (limit : Nat)
    (net : Except String HttpResponse) : List String × List Paper :=
  let _params := lit_search_params topic start_year end_year limit
  match net.bind raise_for_status with
  | Except.error e => (["Semantic Scholar request failed: " ++ e], [])
  | Except.ok r => ([], extractPapers r.body)

/-! ## Synthesis client (`init_vertex`, `ask_gemini_about_papers`) -/

/-- The environment variables the synthesis path reads (`os.getenv` yields
`none` when a variable is unset). -/
structure Env where
  googleCloudProject : Option String
  googleApplicationCredentials : Option String
deriving Repr, DecidableEq

/-- Python truthiness of an `os.getenv` result: set and non-empty. -/
def envTruthy (v : Option String) : Bool :=
  match v with
  | none => false
  | some s => s ≠ ""

/-- The outbound network calls the synthesis path can make. -/
inductive NetCall where
  | vertexInit
  | generateContent
deriving Repr, DecidableEq

/-- A Vertex AI response object; `text` is its `text` attribute (`none` when
the attribute is missing). -/
structure GenResponse where
  text : Option String
deriving Repr, DecidableEq

/-- `init_vertex()`, with the outcome of `vertexai.init` supplied explicitly.
Returns (success flag, `st.error` messages, network calls made).  When either
env var is falsy it fails before any call. -/
def init_vertex (env : Env) (initOutcome : Except String Unit) :
    Bool × List String × List NetCall :=
  if !envTruthy env.googleCloudProject || !envTruthy env.googleApplicationCredentials then
    (false, ["Missing GOOGLE_CLOUD_PROJECT or GOOGLE_APPLICATION_CREDENTIALS env vars."], [])
  else
    match initOutcome with
    | Except.ok _ => (true, [], [NetCall.vertexInit])
    | Except.error e => (false, ["Vertex AI init failed: " ++ e], [NetCall.vertexInit])

/-- `getattr(resp, "text", None) or "No response text."`. -/
def responseText (resp : GenResponse) : String :=
  pyOr resp.text "No response text."

/-- `ask_gemini_about_papers`, with the external outcomes supplied
explicitly.  Returns (answer — `none` for Python `None`, `st.error`
messages, network calls made). -/
def ask_gemini_about_papers (env : Env) (initOutcome : Except String Unit)
    (genOutcome : Except String GenResponse)
    (_user_prompt : String) (_papers : List Paper) :
    Option String × List String × List NetCall :=
  let init := init_vertex env initOutcome
  if !init.1 then
    (none, init.2.1, init.2.2)
  else
    match genOutcome with
    | Except.ok resp =>
      (some (responseText resp), init.2.1, init.2.2 ++ [NetCall.generateContent])
    | Except.error e =>
      (none, init.2.1 ++ ["Gemini request failed: " ++ e],
        init.2.2 ++ [NetCall.generateContent])

/-! ## A state-threaded run of the context builder

To settle mutation/determinism claims, the loop is also given as a run that
threads the list of paper records through every iteration as an explicit
store, reading the current record by position, and returns the final store.
-/

/-- One pass of the builder loop over the store, reading record `pos` each
iteration (`fuel` bounds the `papers[:k]` slice). -/
def runLoop (maxAbsChars : Nat) : Nat → Nat → List Paper →
    (List String × List String) × List Paper
  | 0, _, store => (([], []), store)
  | fuel + 1, pos, store =>
    match store[pos]? with
    | none => (([], []), store)
    | some p =>
      let rest := runLoop maxAbsChars fuel (pos + 1) store
      ((sourceLine (pos + 1) p :: rest.1.1,
        abstractChunk (pos + 1) maxAbsChars p :: rest.1.2), rest.2)

/-- `build_context_from_papers` as a store-threading run: the output pair
plus the store of paper records after the loop finishes. -/
def build_context_run (papers : List Paper) (k maxAbsChars : Nat) :
    (String × String) × List Paper :=
  let r := runLoop maxAbsChars k 0 papers
  ((String.intercalate "\n" r.1.1, String.intercalate "\n\n" r.1.2), r.2)

/-! ## Lemmas about the builder loop -/

theorem buildLoop_length (m : Nat) (l : List Paper) (start : Nat) :
    (buildLoop m start l).1.length = l.length ∧
    (buildLoop m start l).2.length = l.length := by
  induction l generalizing start with
  | nil => simp [buildLoop]
  | cons p ps ih =>
    simp [buildLoop, ih (start + 1)]

theorem buildLoop_getElem (m : Nat) (l : List Paper) (start i : Nat) :
    (buildLoop m start l).1[i]? = (l[i]?).map (sourceLine (start + i)) ∧
    (buildLoop m start l).2[i]? = (l[i]?).map (abstractChunk (start + i) m) := by
  induction l generalizing start i with
  | nil => simp [buildLoop]
  | cons p ps ih =>
    cases i with
    | zero => simp [buildLoop]
    | succ j =>
      have h := ih (start + 1) j
      simp only [buildLoop, List.getElem?_cons_succ]
      constructor
      · rw [h.1]; ring_nf
      · rw [h.2]; ring_nf

theorem runLoop_store (m : Nat) (fuel pos : Nat) (store : List Paper) :
    (runLoop m fuel pos store).2 = store := by
  induction fuel generalizing pos with
  | zero => simp [runLoop]
  | succ n ih =>
    simp only [runLoop]
    cases h : store[pos]? with
    | none => simp
    | some p => simpa using ih (pos + 1)

theorem runLoop_eq_buildLoop (m : Nat) (fuel pos : Nat) (store : List Paper) :
    (runLoop m fuel pos store).1 =
      buildLoop m (pos + 1) ((store.drop pos).take fuel) := by
  induction fuel generalizing pos with
  | zero => simp [runLoop, buildLoop]
  | succ n ih =>
    simp only [runLoop]
    cases h : store[pos]? with
    | none =>
      have hlen : store.length ≤ pos := by
        simpa using List.getElem?_eq_none_iff.mp h
      simp [List.drop_eq_nil_of_le hlen, buildLoop]
    | some p =>
      have hpos : pos < store.length := by
        by_contra hc
        rw [List.getElem?_eq_none_iff.mpr (Nat.le_of_not_lt hc)] at h
        exact Option.noConfusion h
      have hdrop : store.drop pos = store[pos] :: store.drop (pos + 1) :=
        List.drop_eq_getElem_cons hpos
      have hp : store[pos] = p := by
        have := List.getElem?_eq_getElem hpos
        rw [h] at this
        exact (Option.some.injEq _ _).mp this.symm
      rw [hdrop, hp, List.take_succ_cons, buildLoop, ← ih (pos + 1)]

/-! ## Claim theorems -/

/-- C1: `build_context_from_papers` includes at most `k` entries (exactly
`min k papers.length`); entry `i` of the source-line list and entry `i` of
the abstract-chunk list are both built from input record `i` with the
1-based citation index `i + 1`, so the builder keeps the first `k` records
in their original order and never reorders; the returned pair is exactly
the newline-join and double-newline-join of those two lists. -/
theorem C1_first_k_in_order (papers : List Paper) (k m : Nat) :
    (ctxLists papers k m).1.length = min k papers.length ∧
    (ctxLists papers k m).2.length = min k papers.length ∧
    (ctxLists papers k m).1.length ≤ k ∧
    (∀ i, i < k → ∀ p, papers[i]? = some p →
      (ctxLists papers k m).1[i]? = some (sourceLine (i + 1) p) ∧
      (ctxLists papers k m).2[i]? = some (abstractChunk (i + 1) m p)) ∧
    build_context_from_papers papers k m =
      (String.intercalate "\n" (ctxLists papers k m).1,
       String.intercalate "\n\n" (ctxLists papers k m).2) := by
  have hlen := buildLoop_length m (papers.take k) 1
  refine ⟨?_, ?_, ?_, ?_, rfl⟩
  · simpa [ctxLists] using hlen.1
  · simpa [ctxLists] using hlen.2
  · simp only [ctxLists]
    rw [hlen.1]
    simp
  · intro i hik p hp
    have hget := buildLoop_getElem m (papers.take k) 1 i
    have htake : (papers.take k)[i]? = some p := by
      rw [List.getElem?_take_of_lt hik, hp]
    constructor
    · rw [ctxLists, hget.1, htake]
      simp [Nat.add_comm]
    · rw [ctxLists, hget.2, htake]
      simp [Nat.add_comm]

/-- C1 witness: with two concrete records and `k = 1` only the first record
is included, at citation index 1. -/
theorem C1_witness :
    (ctxLists [⟨some "A", some 2020, none, none, none⟩,
               ⟨some "B", none, none, none, none⟩] 1 9).1.length = 1 ∧
    (ctxLists [⟨some "A", some 2020, none, none, none⟩,
               ⟨some "B", none, none, none, none⟩] 1 9).1[0]? =
      some (sourceLine 1 ⟨some "A", some 2020, none, none, none⟩) ∧
    (ctxLists [⟨some "A", some 2020, none, none, none⟩,
               ⟨some "B", none, none, none, none⟩] 1 9).2[0]? =
      some (abstractChunk 1 9 ⟨some "A", some 2020, none, none, none⟩) := by
  have h := C1_first_k_in_order
    [⟨some "A", some 2020, none, none, none⟩,
     ⟨some "B", none, none, none, none⟩] 1 9
  have h4 := h.2.2.2.1 0 (by decide) ⟨some "A", some 2020, none, none, none⟩ rfl
  exact ⟨by simpa using h.1, h4.1, h4.2⟩

/-- C9: the context builder neither mutates the input records nor depends on
anything but its arguments: the store-threaded run returns the store of
paper records unchanged, and its output equals the value of the pure
function `build_context_from_papers` of the inputs — so any two calls with
identical `papers`, `k`, `max_abstract_chars` return identical pairs. -/
theorem C9_pure_deterministic (papers : List Paper) (k m : Nat) :
    (build_context_run papers k m).2 = papers ∧
    (build_context_run papers k m).1 = build_context_from_papers papers k m := by
  constructor
  · simp [build_context_run, runLoop_store]
  · simp [build_context_run, build_context_from_papers, ctxLists,
      runLoop_eq_buildLoop]

/-- C2 counterexample: the code strips whitespace before measuring, so the
claim, stated over the record's raw abstract, is false.  The record's
abstract `"   ab"` has 5 characters, more than the cap 4, yet the emitted
abstract text is the unmarked 2-character `"ab"`, not the raw abstract
truncated to 4 characters with an ellipsis appended. -/
theorem C2_counterexample :
    4 < ("   ab" : String).length ∧
    (build_context_from_papers [⟨none, none, none, some "   ab", none⟩] 8 4).2 =
      "[1] Title: Untitled\nAbstract: ab" ∧
    (build_context_from_papers [⟨none, none, none, some "   ab", none⟩] 8 4).2 ≠
      "[1] Title: Untitled\nAbstract: " ++ pyTake "   ab" 4 ++ "..." := by
  refine ⟨by decide, rfl, by decide⟩

/-- C2 amended: with the abstract measured after whitespace stripping (as
the code does): for every record whose stripped abstract is non-empty, if
the stripped abstract is longer than `max_abstract_chars` the emitted
abstract text is that stripped abstract truncated to exactly
`max_abstract_chars` characters with the ellipsis marker `"..."` appended;
if it is `max_abstract_chars` or shorter it is emitted unmodified with no
marker. -/
theorem C2_truncation (p : Paper) (idx m : Nat)
    (h : strippedAbstract p ≠ "") :
    (m < (strippedAbstract p).length →
      abstractChunk idx m p =
        "[" ++ toString idx ++ "] Title: " ++ titleOf p ++ "\nAbstract: " ++
          (pyTake (strippedAbstract p) m ++ "...") ∧
      (pyTake (strippedAbstract p) m).length = m) ∧
    ((strippedAbstract p).length ≤ m →
      abstractChunk idx m p =
        "[" ++ toString idx ++ "] Title: " ++ titleOf p ++ "\nAbstract: " ++
          strippedAbstract p) := by
  constructor
  · intro hm
    constructor
    · simp [abstractChunk, h, short_abs, hm]
    · show ((strippedAbstract p).data.take m).length = m
      rw [List.length_take]
      exact Nat.min_eq_left (Nat.le_of_lt hm)
  · intro hm
    have hnot : ¬ m < (strippedAbstract p).length := Nat.not_lt.mpr hm
    have htake : pyTake (strippedAbstract p) m = strippedAbstract p := by
      have hd : (strippedAbstract p).data.take m = (strippedAbstract p).data :=
        List.take_of_length_le hm
      show String.mk ((strippedAbstract p).data.take m) = strippedAbstract p
      rw [hd]
    simp [abstractChunk, h, short_abs, hnot, htake]

/-- C2 witness: at cap 3 the stripped abstract `"abcde"` is emitted as
`"abc..."`, and at cap 9 it is emitted unmodified. -/
theorem C2_witness :
    abstractChunk 1 3 ⟨none, none, none, some "abcde", none⟩ =
      "[1] Title: Untitled\nAbstract: " ++ (pyTake "abcde" 3 ++ "...") ∧
    (pyTake ("abcde" : String) 3).length = 3 ∧
    abstractChunk 1 9 ⟨none, none, none, some "abcde", none⟩ =
      "[1] Title: Untitled\nAbstract: abcde" := by
  have h3 := C2_truncation ⟨none, none, none, some "abcde", none⟩ 1 3 (by decide)
  have h9 := C2_truncation ⟨none, none, none, some "abcde", none⟩ 1 9 (by decide)
  have hlt : 3 < (strippedAbstract ⟨none, none, none, some "abcde", none⟩).length := by
    decide
  have hle : (strippedAbstract ⟨none, none, none, some "abcde", none⟩).length ≤ 9 := by
    decide
  exact ⟨(h3.1 hlt).1, (h3.1 hlt).2, h9.2 hle⟩

/-- The source line as the claim describes it: every missing field other
than the title rendered as the empty string (in particular a missing year). -/
def sourceLine_claimed (idx : Nat) (p : Paper) : String :=
  pyStrip ("[" ++ toString idx ++ "] " ++ titleOf p ++ " (" ++
    (match p.year with | none => "" | some y => toString y) ++
    ") — " ++ authorsStr p ++ " — " ++ urlOf p)

/-- C3 counterexample: a record with every field missing renders with the
literal string `None` in the year position — Python's f-string prints the
absent year as `None` — not the empty string the claim requires. -/
theorem C3_counterexample :
    sourceLine 1 ⟨none, none, none, none, none⟩ = "[1] Untitled (None) —  —" ∧
    sourceLine_claimed 1 ⟨none, none, none, none, none⟩ = "[1] Untitled () —  —" ∧
    sourceLine 1 ⟨none, none, none, none, none⟩ ≠
      sourceLine_claimed 1 ⟨none, none, none, none, none⟩ := by
  refine ⟨rfl, rfl, by decide⟩

/-- C3 amended: a record missing any of title, year, authors, or url
renders without raising (the renderer is total); a missing title is
substituted by `"Untitled"`, missing authors and url by empty strings, and
a missing year is rendered as the literal string `"None"`. -/
theorem C3_missing_fields (p : Paper) :
    (p.title = none → titleOf p = "Untitled") ∧
    (p.authors = none → authorsStr p = "") ∧
    (p.url = none → urlOf p = "") ∧
    (p.year = none → yearStr p = "None") ∧
    (∀ idx, sourceLine idx p =
      pyStrip ("[" ++ toString idx ++ "] " ++ titleOf p ++ " (" ++ yearStr p ++
        ") — " ++ authorsStr p ++ " — " ++ urlOf p)) := by
  refine ⟨fun h => ?_, fun h => ?_, fun h => ?_, fun h => ?_, fun _ => rfl⟩
  · simp [titleOf, pyOr, h]
  · simp only [authorsStr, h, Option.getD_none, List.map_nil]
    rfl
  · simp [urlOf, pyOr, h]
  · simp [yearStr, h]

/-- C3 witness: the defaults at the record with every field missing. -/
theorem C3_witness :
    titleOf ⟨none, none, none, none, none⟩ = "Untitled" ∧
    authorsStr ⟨none, none, none, none, none⟩ = "" ∧
    urlOf ⟨none, none, none, none, none⟩ = "" ∧
    yearStr ⟨none, none, none, none, none⟩ = "None" := by
  have h := C3_missing_fields ⟨none, none, none, none, none⟩
  exact ⟨h.1 rfl, h.2.1 rfl, h.2.2.1 rfl, h.2.2.2.1 rfl⟩

/-- C4: the `year` parameter of the search request is `"start-end"` when
both year fields are non-empty, `"start-"` when only the start is
non-empty, `"-end"` when only the end is non-empty, and omitted entirely
when both are empty. -/
theorem C4_year_range (topic start_year end_year : String) (limit : Nat) :
    (start_year ≠ "" → end_year ≠ "" →
      (lit_search_params topic start_year end_year limit).year =
        some (start_year ++ "-" ++ end_year)) ∧
    (start_year ≠ "" → end_year = "" →
      (lit_search_params topic start_year end_year limit).year =
        some (start_year ++ "-")) ∧
    (start_year = "" → end_year ≠ "" →
      (lit_search_params topic start_year end_year limit).year =
        some ("-" ++ end_year)) ∧
    (start_year = "" → end_year = "" →
      (lit_search_params topic start_year end_year limit).year = none) := by
  refine ⟨fun hs he => ?_, fun hs he => ?_, fun hs he => ?_, fun hs he => ?_⟩ <;>
    simp [lit_search_params, lit_search_yearParam, pyTruthy, hs, he]

/-- C4 witness: the four cases at the spec's example years. -/
theorem C4_witness :
    (lit_search_params "t" "2020" "2023" 10).year = some "2020-2023" ∧
    (lit_search_params "t" "2020" "" 10).year = some "2020-" ∧
    (lit_search_params "t" "" "2020" 10).year = some "-2020" ∧
    (lit_search_params "t" "" "" 10).year = none := by
  have h := C4_year_range "t" "2020" "2023" 10
  have h2 := C4_year_range "t" "2020" "" 10
  have h3 := C4_year_range "t" "" "2020" 10
  have h4 := C4_year_range "t" "" "" 10
  exact ⟨h.1 (by decide) (by decide), h2.2.1 (by decide) rfl,
    h3.2.2.1 rfl (by decide), h4.2.2.2 rfl rfl⟩

/-- C5: when the HTTP request raises (network error, timeout) or returns a
non-success (4xx/5xx) status, `lit_search` catches it, surfaces exactly one
user-visible error message, and returns the empty paper list instead of
raising. -/
theorem C5_search_failure (topic start_year end_year : String) (limit : Nat)
    (net : Except String HttpResponse) :
    (∀ msg, net = Except.error msg →
      lit_search topic start_year end_year limit net =
        (["Semantic Scholar request failed: " ++ msg], [])) ∧
    (∀ r, net = Except.ok r → 400 ≤ r.status →
      lit_search topic start_year end_year limit net =
        (["Semantic Scholar request failed: " ++ ("HTTP " ++ toString r.status)],
          [])) := by
  constructor
  · intro msg hnet
    subst hnet
    rfl
  · intro r hnet hstatus
    subst hnet
    simp [lit_search, Except.bind, raise_for_status, hstatus]

/-- C5 witness: a raised timeout and a 500 status both yield one error
message and the empty list. -/
theorem C5_witness :
    lit_search "t" "" "" 10 (Except.error "timeout") =
      (["Semantic Scholar request failed: timeout"], []) ∧
    lit_search "t" "" "" 10 (Except.ok ⟨500, none⟩) =
      (["Semantic Scholar request failed: HTTP 500"], []) := by
  have h := C5_search_failure "t" "" "" 10 (Except.error "timeout")
  have h2 := C5_search_failure "t" "" "" 10 (Except.ok ⟨500, none⟩)
  exact ⟨h.1 "timeout" rfl, h2.2 ⟨500, none⟩ rfl (by decide)⟩

/-- C8: on a success status `lit_search` surfaces no error and returns
exactly the response body's `data` array, upstream order preserved; when
the body is empty, the `data` field is absent, or the field is `null`, it
returns the empty list. -/
theorem C8_search_success (topic start_year end_year : String) (limit : Nat)
    (r : HttpResponse) (hs : r.status < 400) :
    (∀ papers, r.body = some ⟨some (some papers)⟩ →
      lit_search topic start_year end_year limit (Except.ok r) = ([], papers)) ∧
    (r.body = none →
      lit_search topic start_year end_year limit (Except.ok r) = ([], [])) ∧
    (r.body = some ⟨none⟩ →
      lit_search topic start_year end_year limit (Except.ok r) = ([], [])) ∧
    (r.body = some ⟨some none⟩ →
      lit_search topic start_year end_year limit (Except.ok r) = ([], [])) := by
  have hnot : ¬ 400 ≤ r.status := Nat.not_le.mpr hs
  refine ⟨fun papers hb => ?_, fun hb => ?_, fun hb => ?_, fun hb => ?_⟩ <;>
    simp [lit_search, Except.bind, raise_for_status, hnot, extractPapers, hb]

/-- C8 witness: a 200 response with a two-paper `data` array returns exactly
that array in order; a 200 response with empty body returns the empty
list. -/
theorem C8_witness :
    lit_search "t" "" "" 10
      (Except.ok ⟨200, some ⟨some (some
        [⟨some "A", none, none, none, none⟩,
         ⟨some "B", none, none, none, none⟩])⟩⟩) =
      ([], [⟨some "A", none, none, none, none⟩,
            ⟨some "B", none, none, none, none⟩]) ∧
    lit_search "t" "" "" 10 (Except.ok ⟨200, none⟩) = ([], []) := by
  have h := C8_search_success "t" "" "" 10
    ⟨200, some ⟨some (some
      [⟨some "A", none, none, none, none⟩,
       ⟨some "B", none, none, none, none⟩])⟩⟩ (by decide)
  have h2 := C8_search_success "t" "" "" 10 ⟨200, none⟩ (by decide)
  exact ⟨h.1 _ rfl, h2.2.1 rfl⟩

/-- C6: when the project env var or the credentials env var is unset,
`ask_gemini_about_papers` returns `None`, surfaces exactly one
configuration error message, and makes zero network calls (neither
`vertexai.init` nor `generate_content` is invoked). -/
theorem C6_missing_env (env : Env) (initOutcome : Except String Unit)
    (genOutcome : Except String GenResponse) (q : String) (papers : List Paper)
    (h : env.googleCloudProject = none ∨ env.googleApplicationCredentials = none) :
    ask_gemini_about_papers env initOutcome genOutcome q papers =
      (none,
        ["Missing GOOGLE_CLOUD_PROJECT or GOOGLE_APPLICATION_CREDENTIALS env vars."],
        []) := by
  have hfalsy : (!envTruthy env.googleCloudProject ||
      !envTruthy env.googleApplicationCredentials) = true := by
    rcases h with h | h <;> simp [envTruthy, h]
  simp [ask_gemini_about_papers, init_vertex, hfalsy]

/-- C6 witness: with both env vars unset the result is absent, the single
error is the configuration message, and the network-call trace is empty. -/
theorem C6_witness :
    ask_gemini_about_papers ⟨none, none⟩ (Except.ok ())
      (Except.ok ⟨some "answer"⟩) "q" [] =
      (none,
        ["Missing GOOGLE_CLOUD_PROJECT or GOOGLE_APPLICATION_CREDENTIALS env vars."],
        []) :=
  C6_missing_env ⟨none, none⟩ (Except.ok ()) (Except.ok ⟨some "answer"⟩) "q" []
    (Or.inl rfl)

/-- C7: with configuration present and initialization succeeding, a model
response carrying no text (missing or empty `text` attribute) yields the
fixed placeholder `"No response text."`; a raised request error is caught,
surfaced as one user-visible error message, and yields an absent result
instead of raising. -/
theorem C7_model_response (env : Env) (genOutcome : Except String GenResponse)
    (q : String) (papers : List Paper)
    (hp : envTruthy env.googleCloudProject = true)
    (hc : envTruthy env.googleApplicationCredentials = true) :
    (∀ resp, genOutcome = Except.ok resp →
      (resp.text = none ∨ resp.text = some "") →
      ask_gemini_about_papers env (Except.ok ()) genOutcome q papers =
        (some "No response text.", [],
          [NetCall.vertexInit, NetCall.generateContent])) ∧
    (∀ msg, genOutcome = Except.error msg →
      ask_gemini_about_papers env (Except.ok ()) genOutcome q papers =
        (none, ["Gemini request failed: " ++ msg],
          [NetCall.vertexInit, NetCall.generateContent])) := by
  constructor
  · intro resp hgen htext
    subst hgen
    have hrt : responseText resp = "No response text." := by
      rcases htext with h | h <;> simp [responseText, pyOr, h]
    simp [ask_gemini_about_papers, init_vertex, hp, hc, hrt]
  · intro msg hgen
    subst hgen
    simp [ask_gemini_about_papers, init_vertex, hp, hc]

/-- C7 witness: with env vars set, a response without text yields the
placeholder and a raised request error yields an absent result with one
error message. -/
theorem C7_witness :
    ask_gemini_about_papers ⟨some "proj", some "creds"⟩ (Except.ok ())
      (Except.ok ⟨none⟩) "q" [] =
      (some "No response text.", [],
        [NetCall.vertexInit, NetCall.generateContent]) ∧
    ask_gemini_about_papers ⟨some "proj", some "creds"⟩ (Except.ok ())
      (Except.error "boom") "q" [] =
      (none, ["Gemini request failed: boom"],
        [NetCall.vertexInit, NetCall.generateContent]) := by
  have h := C7_model_response ⟨some "proj", some "creds"⟩
    (Except.ok ⟨none⟩) "q" [] (by decide) (by decide)
  have h2 := C7_model_response ⟨some "proj", some "creds"⟩
    (Except.error "boom") "q" [] (by decide) (by decide)
  exact ⟨h.1 ⟨none⟩ rfl (Or.inl rfl), h2.2 "boom" rfl⟩

/-- C10: the abstract is stripped of surrounding whitespace before being
measured and truncated; an absent abstract and a whitespace-only abstract
are both treated as missing, with the chunk carrying the fixed placeholder
`(no abstract available)`. -/
theorem C10_strip_and_placeholder (p : Paper) (idx m : Nat) :
    ((p.abstract = none ∨ ∃ a, p.abstract = some a ∧ a.data.all pySpace) →
      abstractChunk idx m p =
        "[" ++ toString idx ++ "] Title: " ++ titleOf p ++
          "\nAbstract: (no abstract available)") ∧
    (strippedAbstract p ≠ "" →
      abstractChunk idx m p =
        "[" ++ toString idx ++ "] Title: " ++ titleOf p ++ "\nAbstract: " ++
          short_abs m (strippedAbstract p)) := by
  constructor
  · intro h
    have hstrip : strippedAbstract p = "" := by
      rcases h with h | ⟨a, ha, hws⟩
      · simp [strippedAbstract, h, pyStrip]
      · have hnil : a.data.dropWhile pySpace = [] :=
          List.dropWhile_eq_nil_iff.mpr (fun x hx => by
            have := List.all_eq_true.mp hws x hx
            simpa using this)
        simp [strippedAbstract, ha, pyStrip, hnil]
    simp [abstractChunk, hstrip]
  · intro h
    simp [abstractChunk, h]

/-- C10 witness: a whitespace-only abstract produces the placeholder chunk,
and a padded abstract is stripped before truncation. -/
theorem C10_witness :
    abstractChunk 2 900 ⟨some "T", none, none, some "   ", none⟩ =
      "[2] Title: T\nAbstract: (no abstract available)" ∧
    abstractChunk 1 2 ⟨none, none, none, some "  abcd  ", none⟩ =
      "[1] Title: Untitled\nAbstract: " ++ short_abs 2 "abcd" := by
  have h := C10_strip_and_placeholder ⟨some "T", none, none, some "   ", none⟩ 2 900
  have h2 := C10_strip_and_placeholder ⟨none, none, none, some "  abcd  ", none⟩ 1 2
  refine ⟨h.1 (Or.inr ⟨"   ", rfl, by decide⟩), ?_⟩
  have hs : strippedAbstract ⟨none, none, none, some "  abcd  ", none⟩ = "abcd" := by
    decide
  have := h2.2 (by rw [hs]; decide)
  rwa [hs] at this

end AIGenome
